import Mathlib

/-!
Verification of the conversion orchestrator in src/app.py: a single-page
upload/convert/preview/download pipeline. The script is embedded shallowly:
the MarkItDown collaborator becomes an explicit function argument returning
either extracted text or a raised exception message; the Streamlit UI calls
become an ordered list of UI effects; the temporary-file handling becomes an
ordered list of filesystem operations.
-/

/-- Helper for Python str.rfind on character lists: the largest index i with
p.get i = c, or none when c does not occur in p. Recursion prefers an
occurrence in the tail, so the returned index is the last occurrence. -/
def rfindAux (c : Char) : List Char → Option Nat
  | [] => none
  | x :: xs =>
    match rfindAux c xs with
    | some i => some (i + 1)
    | none => if x = c then some 0 else none

/-- Python str.rfind: index of the last occurrence of c in p, or -1 when c
does not occur (Python returns -1 in that case). -/
def rfind (c : Char) (p : List Char) : Int :=
  match rfindAux c p with
  | some i => (i : Int)
  | none => -1

/-- os.path.splitext on a character list, following posixpath.splitext with
separator '/' and extension separator '.': when the last dot lies strictly
after the last separator and the characters between them are not all dots
(so a leading-dot name such as a hidden file keeps its name intact), the
string is split at that last dot; otherwise the extension part is empty. -/
def splitext (p : List Char) : List Char × List Char :=
  if rfind '.' p > rfind '/' p then
    if ((p.drop ((rfind '/' p + 1).toNat)).take
        ((rfind '.' p).toNat - (rfind '/' p + 1).toNat)).any (fun ch => ch != '.') then
      (p.take (rfind '.' p).toNat, p.drop (rfind '.' p).toNat)
    else (p, [])
  else (p, [])

/-- os.path.splitext on strings: (root, extension). -/
def splitextStr (s : String) : String × String :=
  ((splitext s.data).1.asString, (splitext s.data).2.asString)

/-- The final path component of a filename: the characters strictly after the
last '/' (the whole string when there is no '/'). -/
def finalComponent (s : String) : List Char :=
  s.data.drop ((rfind '/' s.data + 1).toNat)

/-- One uploaded file as handed over by the upload widget: the declared
filename and the raw bytes returned by read(). -/
structure UploadedFile where
  name : String
  content : List Nat
  deriving DecidableEq

/-- A filesystem operation performed by the script: writing the uploaded
bytes to the temporary path, or removing that path. -/
inductive FSOp where
  | write (path : String) (content : List Nat)
  | remove (path : String)
  deriving DecidableEq

/-- A user-visible UI effect of the script, in order of occurrence: an
inline error message (st.error), the preview text area (st.text_area), or
the download control (st.download_button with its label, output filename,
mime type and full payload). -/
inductive UIEffect where
  | error (msg : String)
  | preview (text : String)
  | download (label : String) (filename : String) (mime : String) (payload : String)
  deriving DecidableEq

/-- convert_file_to_text from src/app.py, lines 15-42. The MarkItDown
collaborator is the argument conv, a function of the temporary path and the
bytes stored at that path, returning either the extracted text_content or a
raised exception message. On success the text is returned with no message
shown; on exception the script shows one st.error message built from the
exception and returns None. The result pairs the optional text with the
list of error messages shown. -/
def convert_file_to_text (conv : String → List Nat → Except String String)
    (file_path : String) (bytes : List Nat) : Option String × List String :=
  match conv file_path bytes with
  | Except.ok t => (some t, [])
  | Except.error e => (none, ["Error converting file: " ++ e])

/-- The path of the temporary file from src/app.py line 63:
tempfile.NamedTemporaryFile picks a fresh base name (supplied here by the
environment as tmpBase) and appends the requested suffix, which the script
sets to os.path.splitext(uploaded_file.name)[1]. -/
def temp_file_path (tmpBase : String) (name : String) : String :=
  tmpBase ++ (splitextStr name).2

/-- preview_text from src/app.py line 76: the Python slice
text_content[:1000], the first 1000 characters of the converted text. -/
def preview_text (text_content : String) : String :=
  (text_content.data.take 1000).asString

/-- output_filename from src/app.py line 80:
os.path.splitext(uploaded_file.name)[0] + ".txt". -/
def output_filename (name : String) : String :=
  (splitextStr name).1 ++ ".txt"

/-- The main script body of src/app.py, lines 59-87, for one uploaded file:
write the bytes to the temporary path, run convert_file_to_text, remove the
temporary file, and, only when text_content is truthy (not None and not the
empty string), show the preview of the first 1000 characters and the
download control carrying the full text. Returns the filesystem trace and
the UI effects in order. -/
def handleUpload (conv : String → List Nat → Except String String)
    (tmpBase : String) (f : UploadedFile) : List FSOp × List UIEffect :=
  let path := temp_file_path tmpBase f.name
  let res := convert_file_to_text conv path f.content
  ([FSOp.write path f.content, FSOp.remove path],
   res.2.map UIEffect.error ++
     match res.1 with
     | some t =>
       if t = "" then []
       else
         [UIEffect.preview (preview_text t),
          UIEffect.download "Download Full Text" (output_filename f.name) "text/plain" t]
     | none => [])

/-- Interpretation of a filesystem operation on the set of existing paths,
kept as a list: write creates the path if absent, remove deletes it. -/
def applyOp (fs : List String) (op : FSOp) : List String :=
  match op with
  | FSOp.write p _ => if p ∈ fs then fs else fs ++ [p]
  | FSOp.remove p => fs.erase p

/-- Run a filesystem trace from an initial set of existing paths. -/
def runOps (fs : List String) (ops : List FSOp) : List String :=
  ops.foldl applyOp fs

/-- The converted text is a List Char underneath: the data of the string
built by asString is that list. -/
theorem asString_data (l : List Char) : l.asString.data = l := rfl

/-- C4: for every conversion result text t, the preview is t truncated to
its first 1000 characters: when t has at most 1000 characters the preview
is t unmodified, and when t has more the preview has length exactly 1000
and its characters are the first 1000 characters of t. -/
theorem preview_truncation (t : String) :
    (t.length ≤ 1000 → preview_text t = t) ∧
    (1000 < t.length →
      (preview_text t).length = 1000 ∧ (preview_text t).data = t.data.take 1000) := by
  constructor
  · intro h
    have hd : t.data.take 1000 = t.data := List.take_of_length_le h
    show (t.data.take 1000).asString = t
    rw [hd]
    rfl
  · intro h
    refine ⟨?_, rfl⟩
    show (t.data.take 1000).asString.length = 1000
    have : (t.data.take 1000).asString.length = (t.data.take 1000).length := rfl
    rw [this, List.length_take]
    have ht : t.length = t.data.length := rfl
    omega

/-- Witness for C4 at a concrete short text: the preview of abc is abc. -/
theorem preview_truncation_witness :
    ("abc" : String).length ≤ 1000 ∧ preview_text "abc" = "abc" :=
  ⟨by decide, (preview_truncation "abc").1 (by decide)⟩

/-- C5: the download filename strips only the final extension and appends
".txt": report.docx becomes report.txt and archive.tar.zip becomes
archive.tar.txt. -/
theorem output_filename_examples :
    output_filename "report.docx" = "report.txt" ∧
    output_filename "archive.tar.zip" = "archive.tar.txt" := by
  constructor <;> decide

/-- C2: when the conversion collaborator raises, the exception is caught
inside convert_file_to_text (the handler is total, nothing propagates), the
UI effects of the request are exactly one error message built from the
exception, and no preview and no download control are produced. -/
theorem error_path (conv : String → List Nat → Except String String)
    (tmpBase : String) (f : UploadedFile) (e : String)
    (h : conv (temp_file_path tmpBase f.name) f.content = Except.error e) :
    (handleUpload conv tmpBase f).2 = [UIEffect.error ("Error converting file: " ++ e)] := by
  simp [handleUpload, convert_file_to_text, h]

/-- Witness for C2: a collaborator that always raises the message boom. -/
theorem error_path_witness :
    (handleUpload (fun _ _ => Except.error "boom") "tmp" ⟨"a.txt", [0]⟩).2 =
      [UIEffect.error ("Error converting file: " ++ "boom")] :=
  error_path (fun _ _ => Except.error "boom") "tmp" ⟨"a.txt", [0]⟩ "boom" rfl

/-- C6: when conversion succeeds with non-empty text t, the UI effects are
the preview followed by the download control, and that control carries the
label Download Full Text, the derived output filename, the mime type
text/plain, and the full untruncated text t as payload. -/
theorem download_full_text (conv : String → List Nat → Except String String)
    (tmpBase : String) (f : UploadedFile) (t : String)
    (hok : conv (temp_file_path tmpBase f.name) f.content = Except.ok t)
    (hne : t ≠ "") :
    (handleUpload conv tmpBase f).2 =
      [UIEffect.preview (preview_text t),
       UIEffect.download "Download Full Text" (output_filename f.name) "text/plain" t] := by
  simp [handleUpload, convert_file_to_text, hok, hne]

/-- Witness for C6: a collaborator returning the fixed text hello. -/
theorem download_full_text_witness :
    (handleUpload (fun _ _ => Except.ok "hello") "tmp" ⟨"a.txt", [0]⟩).2 =
      [UIEffect.preview (preview_text "hello"),
       UIEffect.download "Download Full Text" (output_filename "a.txt") "text/plain" "hello"] :=
  download_full_text (fun _ _ => Except.ok "hello") "tmp" ⟨"a.txt", [0]⟩ "hello" rfl
    (by decide)

/-- Counterexample to C1 as stated: with a collaborator that succeeds and
returns the empty string, the request produces no UI effects at all, so in
particular no preview surface and no download artifact are produced; the
truthiness test on line 73 of src/app.py skips the empty string. -/
theorem empty_text_counterexample :
    (handleUpload (fun _ _ => Except.ok "") "tmp" ⟨"a.txt", [0]⟩).2 = [] := rfl

/-- C1 as amended: when conversion succeeds but returns empty text, no
error message is shown, and no preview and no download artifact are
produced either: the request ends with no UI effects. -/
theorem empty_text_no_ui (conv : String → List Nat → Except String String)
    (tmpBase : String) (f : UploadedFile)
    (h : conv (temp_file_path tmpBase f.name) f.content = Except.ok "") :
    (handleUpload conv tmpBase f).2 = [] := by
  simp [handleUpload, convert_file_to_text, h]

/-- Witness for the amended C1: a collaborator that returns empty text. -/
theorem empty_text_no_ui_witness :
    (handleUpload (fun _ _ => Except.ok "") "base" ⟨"b.pdf", [1, 2]⟩).2 = [] :=
  empty_text_no_ui (fun _ _ => Except.ok "") "base" ⟨"b.pdf", [1, 2]⟩ rfl

/-- C9: on the success branch the preview is a prefix of the download
payload: the payload is the unmodified result text t, and the preview
characters followed by the remaining characters of t reconstitute t, so the
preview never shows a character absent from the downloaded file. -/
theorem preview_prefix_of_payload (conv : String → List Nat → Except String String)
    (tmpBase : String) (f : UploadedFile) (t : String)
    (hok : conv (temp_file_path tmpBase f.name) f.content = Except.ok t)
    (hne : t ≠ "") :
    (handleUpload conv tmpBase f).2 =
      [UIEffect.preview (preview_text t),
       UIEffect.download "Download Full Text" (output_filename f.name) "text/plain" t] ∧
    (preview_text t).data ++ t.data.drop 1000 = t.data := by
  constructor
  · simp [handleUpload, convert_file_to_text, hok, hne]
  · show t.data.take 1000 ++ t.data.drop 1000 = t.data
    exact List.take_append_drop 1000 t.data

/-- Witness for C9 at a concrete successful conversion. -/
theorem preview_prefix_of_payload_witness :
    (handleUpload (fun _ _ => Except.ok "hi") "tmp" ⟨"c.md", []⟩).2 =
      [UIEffect.preview (preview_text "hi"),
       UIEffect.download "Download Full Text" (output_filename "c.md") "text/plain" "hi"] ∧
    (preview_text "hi").data ++ ("hi" : String).data.drop 1000 = ("hi" : String).data :=
  preview_prefix_of_payload (fun _ _ => Except.ok "hi") "tmp" ⟨"c.md", []⟩ "hi" rfl
    (by decide)

/-- C3: temporary file cleanup. Starting from any filesystem in which the
freshly generated temporary path does not yet exist, after running the
filesystem trace of handleUpload (whatever the collaborator does) no file
remains at that path: the trace writes it once and removes it. -/
theorem temp_file_cleanup (conv : String → List Nat → Except String String)
    (tmpBase : String) (f : UploadedFile) (fs0 : List String)
    (hfresh : temp_file_path tmpBase f.name ∉ fs0) :
    temp_file_path tmpBase f.name ∉ runOps fs0 (handleUpload conv tmpBase f).1 := by
  have htrace : (handleUpload conv tmpBase f).1 =
      [FSOp.write (temp_file_path tmpBase f.name) f.content,
       FSOp.remove (temp_file_path tmpBase f.name)] := rfl
  rw [htrace]
  show temp_file_path tmpBase f.name ∉
    ((if temp_file_path tmpBase f.name ∈ fs0 then fs0
      else fs0 ++ [temp_file_path tmpBase f.name]).erase (temp_file_path tmpBase f.name))
  rw [if_neg hfresh, List.erase_append_right _ hfresh, List.erase_cons_head]
  simpa using hfresh

/-- Witness for C3: concrete empty filesystem and failing collaborator. -/
theorem temp_file_cleanup_witness :
    temp_file_path "tmp" "a.txt" ∉
      runOps [] (handleUpload (fun _ _ => Except.error "x") "tmp" ⟨"a.txt", []⟩).1 :=
  temp_file_cleanup (fun _ _ => Except.error "x") "tmp" ⟨"a.txt", []⟩ [] (by simp)

/-- C7: assuming the collaborator returns the same result for the same
bytes whatever path it is given (a deterministic function of the bytes),
two invocations of the handler on the same uploaded file, even with the two
distinct fresh temporary base names of two separate requests, produce the
same UI effects, and hence the same result text, preview and payload: the
orchestrator adds no nondeterminism. -/
theorem deterministic_result (conv : String → List Nat → Except String String)
    (hdet : ∀ p q b, conv p b = conv q b) (tmp1 tmp2 : String) (f : UploadedFile) :
    (handleUpload conv tmp1 f).2 = (handleUpload conv tmp2 f).2 := by
  show (convert_file_to_text conv (temp_file_path tmp1 f.name) f.content).2.map UIEffect.error ++ _ =
    (convert_file_to_text conv (temp_file_path tmp2 f.name) f.content).2.map UIEffect.error ++ _
  unfold convert_file_to_text
  rw [hdet (temp_file_path tmp1 f.name) (temp_file_path tmp2 f.name) f.content]

/-- Witness for C7: a constant collaborator and two distinct base names. -/
theorem deterministic_result_witness :
    (handleUpload (fun _ _ => Except.ok "hi") "t1" ⟨"a.md", [1]⟩).2 =
      (handleUpload (fun _ _ => Except.ok "hi") "t2" ⟨"a.md", [1]⟩).2 :=
  deterministic_result (fun _ _ => Except.ok "hi") (fun _ _ _ => rfl) "t1" "t2"
    ⟨"a.md", [1]⟩

/-- C8: the filesystem trace of every invocation is exactly one write of
the uploaded bytes to the temporary path followed by one remove of that
same path, and nothing else; the path carries as suffix the original final
extension of the uploaded name, os.path.splitext applied to it. -/
theorem fs_trace (conv : String → List Nat → Except String String)
    (tmpBase : String) (f : UploadedFile) :
    (handleUpload conv tmpBase f).1 =
      [FSOp.write (tmpBase ++ (splitextStr f.name).2) f.content,
       FSOp.remove (tmpBase ++ (splitextStr f.name).2)] := rfl

/-- When rfindAux finds index i, the character c occurs among the elements
of p from position i on. -/
theorem rfindAux_mem_drop (c : Char) (p : List Char) (i : Nat)
    (h : rfindAux c p = some i) : c ∈ p.drop i := by
  induction p generalizing i with
  | nil => simp [rfindAux] at h
  | cons x xs ih =>
    rw [rfindAux] at h
    cases hx : rfindAux c xs with
    | some j =>
      rw [hx] at h
      injection h with h'
      subst h'
      simpa using ih j hx
    | none =>
      rw [hx] at h
      by_cases hc : x = c
      · rw [if_pos hc] at h
        injection h with h'
        subst h'
        simp [hc]
      · rw [if_neg hc] at h
        exact absurd h (by simp)

/-- rfind never returns less than -1. -/
theorem neg_one_le_rfind (c : Char) (p : List Char) : -1 ≤ rfind c p := by
  unfold rfind
  cases rfindAux c p with
  | some i => simp; omega
  | none => simp

/-- When the final path component of p holds no dot, os.path.splitext
leaves p whole with an empty extension: the last dot, if any, lies in the
directory part, at or before the last separator. -/
theorem splitext_no_dot (p : List Char)
    (h : '.' ∉ p.drop ((rfind '/' p + 1).toNat)) :
    splitext p = (p, []) := by
  have hcond : ¬ rfind '.' p > rfind '/' p := by
    intro hgt
    cases hd : rfindAux '.' p with
    | none =>
      have : rfind '.' p = -1 := by rw [rfind, hd]
      have := neg_one_le_rfind '/' p
      omega
    | some d =>
      have hdot : rfind '.' p = (d : Int) := by rw [rfind, hd]
      have hk : ((rfind '/' p + 1)).toNat ≤ d := by
        have := neg_one_le_rfind '/' p
        omega
      have hmemd : '.' ∈ p.drop d := rfindAux_mem_drop '.' p d hd
      have hdd : p.drop d = (p.drop ((rfind '/' p + 1).toNat)).drop
          (d - (rfind '/' p + 1).toNat) := by
        rw [List.drop_drop]
        congr 1
        omega
      rw [hdd] at hmemd
      exact h (List.drop_subset _ _ hmemd)
  unfold splitext
  rw [if_neg hcond]

/-- C10: for an uploaded filename whose final component holds no dot, the
temporary file suffix requested from tempfile is empty (the extension part
of os.path.splitext is empty, so the temporary path is the bare fresh base
name), and the derived download filename is the original name with ".txt"
appended unchanged. -/
theorem no_extension_name (name : String) (h : '.' ∉ finalComponent name) :
    (splitextStr name).2 = "" ∧ (∀ tmpBase, temp_file_path tmpBase name = tmpBase) ∧
    output_filename name = name ++ ".txt" := by
  have hsplit : splitext name.data = (name.data, []) := splitext_no_dot name.data h
  refine ⟨?_, ?_, ?_⟩
  · show (splitext name.data).2.asString = ""
    rw [hsplit]
    rfl
  · intro tmpBase
    show tmpBase ++ (splitext name.data).2.asString = tmpBase
    rw [hsplit]
    show tmpBase ++ "" = tmpBase
    simp
  · show (splitext name.data).1.asString ++ ".txt" = name ++ ".txt"
    rw [hsplit]
    rfl

/-- Witness for C10 at the concrete dotless name notes: empty temporary
suffix and download filename notes.txt. -/
theorem no_extension_name_witness :
    ('.' ∉ finalComponent "notes") ∧
    (splitextStr "notes").2 = "" ∧ temp_file_path "base" "notes" = "base" ∧
    output_filename "notes" = "notes" ++ ".txt" := by
  have hndot : '.' ∉ finalComponent "notes" := by decide
  have hmain := no_extension_name "notes" hndot
  exact ⟨hndot, hmain.1, hmain.2.1 "base", hmain.2.2⟩
